import Mathlib

/-!
Verification of the civa-frontend core components: the pagination window
calculator (`Pagination.tsx`), the generic HTTP request pipeline
(`http-client`), and the paginated-result assembler (`bus-assembler.ts` /
`bus-service`).  Definitions are shallow embeddings of the TypeScript
source; theorems settle the specification's claims about them.
-/

/-! ## Pagination window calculator (src/ui/components/organisms/Pagination.tsx) -/

/-- Embedding of `getVisiblePages` (Pagination.tsx lines 46-68).  Page
indices are 0-based; the sentinel values `-1` and `-2` are the two
ellipsis markers exactly as in the source.  The `totalPages ≤ 7` branch
mirrors `Array.from(\x7b length: totalPages \x7d, (_, i) => i)` (empty for a
non-positive length); the two five-iteration `for` loops are rendered as
maps over `List.range 5`. -/
def getVisiblePages (currentPage totalPages : Int) : List Int :=
  if totalPages ≤ 7 then
    (List.range totalPages.toNat).map (fun i : Nat => (i : Int))
  else if currentPage ≤ 2 then
    ((List.range 5).map (fun i : Nat => (i : Int))) ++ [-1, totalPages - 1]
  else if totalPages - 3 ≤ currentPage then
    [0, -1] ++ (List.range 5).map (fun i : Nat => totalPages - 5 + (i : Int))
  else
    [0, -1, currentPage - 1, currentPage, currentPage + 1, -2, totalPages - 1]

/-- Embedding of the ellipsis test used when rendering the window
(Pagination.tsx line 121: `page === -1 || page === -2`). -/
def isEllipsis (page : Int) : Bool :=
  page == -1 || page == -2

/-- Embedding of the range text computation (Pagination.tsx lines 43-44):
`const start = currentPage * pageSize + 1`. -/
def rangeStart (currentPage pageSize : Int) : Int :=
  currentPage * pageSize + 1

/-- Embedding of the range text computation (Pagination.tsx line 44):
`const end = Math.min((currentPage + 1) * pageSize, totalElements)`. -/
def rangeEnd (currentPage pageSize totalElements : Int) : Int :=
  min ((currentPage + 1) * pageSize) totalElements

/-- The range start as the specification words it:
`start = currentPage * pageSize + 1`. -/
def spec_rangeStart (currentPage pageSize : Int) : Int :=
  currentPage * pageSize + 1

/-- The range end as the specification words it:
`end = min((currentPage+1) * pageSize, totalElements)`. -/
def spec_rangeEnd (currentPage pageSize totalElements : Int) : Int :=
  min ((currentPage + 1) * pageSize) totalElements

lemma getVisiblePages_small (currentPage totalPages : Int) (h : totalPages ≤ 7) :
    getVisiblePages currentPage totalPages
      = (List.range totalPages.toNat).map (fun i : Nat => (i : Int)) := by
  unfold getVisiblePages
  rw [if_pos h]

lemma getVisiblePages_start (currentPage totalPages : Int)
    (h7 : 7 < totalPages) (hc : currentPage ≤ 2) :
    getVisiblePages currentPage totalPages
      = [0, 1, 2, 3, 4, -1, totalPages - 1] := by
  unfold getVisiblePages
  rw [if_neg (by omega), if_pos hc]
  rfl

lemma getVisiblePages_end (currentPage totalPages : Int)
    (h7 : 7 < totalPages) (hc : totalPages - 3 ≤ currentPage) :
    getVisiblePages currentPage totalPages
      = [0, -1, totalPages - 5, totalPages - 4, totalPages - 3,
         totalPages - 2, totalPages - 1] := by
  unfold getVisiblePages
  rw [if_neg (by omega), if_neg (by omega), if_pos hc]
  have h5 : List.range 5 = [0, 1, 2, 3, 4] := rfl
  rw [h5]
  simp only [List.map_cons, List.map_nil, List.cons_append, List.nil_append,
    List.cons.injEq, and_true, true_and]
  omega

lemma getVisiblePages_middle (currentPage totalPages : Int)
    (h7 : 7 < totalPages) (h2 : 2 < currentPage) (h3 : currentPage < totalPages - 3) :
    getVisiblePages currentPage totalPages
      = [0, -1, currentPage - 1, currentPage, currentPage + 1, -2,
         totalPages - 1] := by
  unfold getVisiblePages
  rw [if_neg (by omega), if_neg (by omega), if_neg (by omega)]

lemma isEllipsis_eq_false_of_nonneg (x : Int) (h : 0 ≤ x) : isEllipsis x = false := by
  simp only [isEllipsis, Bool.or_eq_false_iff, beq_eq_false_iff_ne, ne_eq]
  omega

/-- Claim C5: for every `totalPages ≤ 7` (a page count, hence nonnegative),
`getVisiblePages` returns exactly `totalPages` entries, namely every page
index `0` through `totalPages - 1` in ascending order, with no ellipsis
marker. -/
theorem claim_C5_small_total (currentPage totalPages : Int)
    (h : totalPages ≤ 7) (h0 : 0 ≤ totalPages) :
    ((getVisiblePages currentPage totalPages).length : Int) = totalPages ∧
    (∀ x : Int, x ∈ getVisiblePages currentPage totalPages ↔ 0 ≤ x ∧ x < totalPages) ∧
    List.Sorted (· < ·) (getVisiblePages currentPage totalPages) ∧
    ∀ x ∈ getVisiblePages currentPage totalPages, isEllipsis x = false := by
  rw [getVisiblePages_small currentPage totalPages h]
  refine ⟨?_, ?_, ?_, ?_⟩
  · rw [List.length_map, List.length_range]
    omega
  · intro x
    simp only [List.mem_map, List.mem_range]
    constructor
    · rintro ⟨i, hi, rfl⟩
      omega
    · intro hx
      exact ⟨x.toNat, by omega, by omega⟩
  · exact List.Pairwise.map _ (fun a b hab => by exact_mod_cast hab)
      (List.pairwise_lt_range _)
  · intro x hx
    simp only [List.mem_map, List.mem_range] at hx
    obtain ⟨i, _, rfl⟩ := hx
    exact isEllipsis_eq_false_of_nonneg _ (by omega)

/-- Closed witness for claim C5 at `currentPage = 1`, `totalPages = 5`. -/
theorem claim_C5_witness :
    (5 : Int) ≤ 7 ∧ (0 : Int) ≤ 5 ∧
    (((getVisiblePages 1 5).length : Int) = 5 ∧
      (∀ x : Int, x ∈ getVisiblePages 1 5 ↔ 0 ≤ x ∧ x < 5) ∧
      List.Sorted (· < ·) (getVisiblePages 1 5) ∧
      ∀ x ∈ getVisiblePages 1 5, isEllipsis x = false) :=
  ⟨by decide, by decide, claim_C5_small_total 1 5 (by decide) (by decide)⟩

/-- Claim C3: for every `totalPages > 7` and `currentPage ≤ 2` (near-start
regime), `getVisiblePages` returns the five indices `0, 1, 2, 3, 4`, then
one ellipsis marker, then the last index `totalPages - 1`; in particular
`getVisiblePages 0 10 = [0, 1, 2, 3, 4, ellipsis, 9]`. -/
theorem claim_C3_near_start (currentPage totalPages : Int)
    (h7 : 7 < totalPages) (hc : currentPage ≤ 2) :
    getVisiblePages currentPage totalPages
        = [0, 1, 2, 3, 4, -1, totalPages - 1] ∧
    isEllipsis (-1) = true ∧
    getVisiblePages 0 10 = [0, 1, 2, 3, 4, -1, 9] :=
  ⟨getVisiblePages_start currentPage totalPages h7 hc, rfl, by decide⟩

/-- Closed witness for claim C3 at `currentPage = 0`, `totalPages = 10`. -/
theorem claim_C3_witness :
    (7 : Int) < 10 ∧ (0 : Int) ≤ 2 ∧
    getVisiblePages 0 10 = [0, 1, 2, 3, 4, -1, 9] :=
  ⟨by decide, by decide, (claim_C3_near_start 0 10 (by decide) (by decide)).1⟩

/-- Claim C4: for every `totalPages > 7` and `currentPage ≥ totalPages - 3`
(near-end regime), `getVisiblePages` returns the first index `0`, one
ellipsis marker, then the five indices `totalPages - 5` through
`totalPages - 1`; in particular
`getVisiblePages 9 10 = [0, ellipsis, 5, 6, 7, 8, 9]`. -/
theorem claim_C4_near_end (currentPage totalPages : Int)
    (h7 : 7 < totalPages) (hc : totalPages - 3 ≤ currentPage) :
    getVisiblePages currentPage totalPages
        = [0, -1, totalPages - 5, totalPages - 4, totalPages - 3,
           totalPages - 2, totalPages - 1] ∧
    isEllipsis (-1) = true ∧
    getVisiblePages 9 10 = [0, -1, 5, 6, 7, 8, 9] :=
  ⟨getVisiblePages_end currentPage totalPages h7 hc, rfl, by decide⟩

/-- Closed witness for claim C4 at `currentPage = 9`, `totalPages = 10`. -/
theorem claim_C4_witness :
    (7 : Int) < 10 ∧ (10 : Int) - 3 ≤ 9 ∧
    getVisiblePages 9 10 = [0, -1, 5, 6, 7, 8, 9] :=
  ⟨by decide, by decide, (claim_C4_near_end 9 10 (by decide) (by decide)).1⟩

/-- Claim C1: for every `totalPages > 7` and `2 < currentPage < totalPages - 3`
(middle regime), `getVisiblePages` returns the first index `0`, an ellipsis
marker, the three indices `currentPage - 1, currentPage, currentPage + 1`,
a second distinct ellipsis marker, and the last index `totalPages - 1`; in
particular `getVisiblePages 5 10 = [0, ellipsis, 4, 5, 6, ellipsis, 9]`
with the two ellipsis markers distinguishable (`-1 ≠ -2`). -/
theorem claim_C1_middle (currentPage totalPages : Int)
    (h7 : 7 < totalPages) (h2 : 2 < currentPage) (h3 : currentPage < totalPages - 3) :
    getVisiblePages currentPage totalPages
        = [0, -1, currentPage - 1, currentPage, currentPage + 1, -2,
           totalPages - 1] ∧
    isEllipsis (-1) = true ∧ isEllipsis (-2) = true ∧ (-1 : Int) ≠ -2 ∧
    getVisiblePages 5 10 = [0, -1, 4, 5, 6, -2, 9] :=
  ⟨getVisiblePages_middle currentPage totalPages h7 h2 h3, rfl, rfl,
    by decide, by decide⟩

/-- Closed witness for claim C1 at `currentPage = 5`, `totalPages = 10`. -/
theorem claim_C1_witness :
    (7 : Int) < 10 ∧ (2 : Int) < 5 ∧ (5 : Int) < 10 - 3 ∧
    getVisiblePages 5 10 = [0, -1, 4, 5, 6, -2, 9] :=
  ⟨by decide, by decide, by decide,
    (claim_C1_middle 5 10 (by decide) (by decide) (by decide)).1⟩

/-- Claim C10: for every `totalPages > 7` and `0 ≤ currentPage < totalPages`,
`getVisiblePages` returns exactly 7 entries, and its non-ellipsis entries
always include the first index `0`, the current page, and the last index
`totalPages - 1`. -/
theorem claim_C10_window_shape (currentPage totalPages : Int)
    (h7 : 7 < totalPages) (h0 : 0 ≤ currentPage) (hlt : currentPage < totalPages) :
    (getVisiblePages currentPage totalPages).length = 7 ∧
    0 ∈ getVisiblePages currentPage totalPages ∧
    currentPage ∈ getVisiblePages currentPage totalPages ∧
    (totalPages - 1) ∈ getVisiblePages currentPage totalPages ∧
    isEllipsis 0 = false ∧ isEllipsis currentPage = false ∧
    isEllipsis (totalPages - 1) = false := by
  have e0 : isEllipsis 0 = false := rfl
  have ecp : isEllipsis currentPage = false :=
    isEllipsis_eq_false_of_nonneg currentPage h0
  have etp : isEllipsis (totalPages - 1) = false :=
    isEllipsis_eq_false_of_nonneg (totalPages - 1) (by omega)
  rcases le_or_lt currentPage 2 with hs | hs
  · rw [getVisiblePages_start currentPage totalPages h7 hs]
    refine ⟨rfl, by simp, ?_, by simp, e0, ecp, etp⟩
    simp only [List.mem_cons, List.not_mem_nil, or_false]
    omega
  · rcases le_or_lt (totalPages - 3) currentPage with he | he
    · rw [getVisiblePages_end currentPage totalPages h7 he]
      refine ⟨rfl, by simp, ?_, by simp, e0, ecp, etp⟩
      simp only [List.mem_cons, List.not_mem_nil, or_false]
      omega
    · rw [getVisiblePages_middle currentPage totalPages h7 hs he]
      exact ⟨rfl, by simp, by simp, by simp, e0, ecp, etp⟩

/-- Closed witness for claim C10 at `currentPage = 3`, `totalPages = 9`. -/
theorem claim_C10_witness :
    (7 : Int) < 9 ∧ (0 : Int) ≤ 3 ∧ (3 : Int) < 9 ∧
    ((getVisiblePages 3 9).length = 7 ∧
      0 ∈ getVisiblePages 3 9 ∧ (3 : Int) ∈ getVisiblePages 3 9 ∧
      (9 - 1 : Int) ∈ getVisiblePages 3 9 ∧
      isEllipsis 0 = false ∧ isEllipsis 3 = false ∧
      isEllipsis (9 - 1) = false) :=
  ⟨by decide, by decide, by decide,
    claim_C10_window_shape 3 9 (by decide) (by decide) (by decide)⟩

/-- Claim C6: the displayed range of the pagination component is computed as
`start = currentPage * pageSize + 1` and
`end = min((currentPage + 1) * pageSize, totalElements)`, exactly the
formulas of the specification; in particular for `currentPage = 1`,
`pageSize = 5`, `totalElements = 23`, `start = 6` and `end = 10`. -/
theorem claim_C6_range_text :
    (∀ currentPage pageSize totalElements : Int,
        rangeStart currentPage pageSize = spec_rangeStart currentPage pageSize ∧
        rangeEnd currentPage pageSize totalElements
          = spec_rangeEnd currentPage pageSize totalElements) ∧
    rangeStart 1 5 = 6 ∧ rangeEnd 1 5 23 = 10 :=
  ⟨fun _ _ _ => ⟨rfl, rfl⟩, by decide, by decide⟩

/-! ## HTTP request pipeline (src/unnamed/part_000, `request` and friends) -/

/-- JSON values, the results of the host's `JSON.parse`. -/
inductive Json where
  | null : Json
  | bool (b : Bool) : Json
  | num (n : Int) : Json
  | str (s : String) : Json
  | arr (elems : List Json) : Json
  | obj (fields : List (String × Json)) : Json

/-- A settled HTTP response as the `fetch` promise delivers it: status code,
status text, optional `content-type` header, and the body (read as text). -/
structure HttpResponse where
  status : Nat
  statusText : String
  contentType : Option String
  body : String

/-- The `res.ok` flag of the Fetch standard: status in the range 200-299. -/
def resOk (res : HttpResponse) : Bool :=
  decide (200 ≤ res.status) && decide (res.status ≤ 299)

/-- The `data` payload attached to a thrown request error: `null` when the
body was empty, the parsed JSON when `JSON.parse` succeeded, the raw text
when it threw (part_000 lines 251-258). -/
inductive ErrorData where
  | null : ErrorData
  | json (j : Json) : ErrorData
  | text (s : String) : ErrorData

/-- The enriched error thrown on a non-success status (part_000 lines
260-263): `Object.assign(new Error(text || res.statusText),
\x7b status: res.status, data: errorData \x7d)`. -/
structure RequestError where
  message : String
  status : Nat
  data : ErrorData

/-- Errors thrown by the host environment rather than built by `request`:
a timeout abort, a network failure, or a `SyntaxError` from `res.json()`
on a malformed success body. -/
inductive ThrownError where
  | abortError : ThrownError
  | networkError (msg : String) : ThrownError
  | jsonSyntaxError : ThrownError

/-- Everything `request` can fail with: the HTTP error it constructs
itself, or a rethrown host error (the `catch` block logs and rethrows,
part_000 lines 275-278). -/
inductive RequestFailure where
  | http (e : RequestError) : RequestFailure
  | thrown (e : ThrownError) : RequestFailure

/-- Successful results of `request`: `undefined` for a 204, parsed JSON
for a JSON content type, raw text otherwise (part_000 lines 266-273). -/
inductive RequestSuccess where
  | empty : RequestSuccess
  | json (j : Json) : RequestSuccess
  | text (s : String) : RequestSuccess

/-- `String.includes` of JavaScript: `sub` occurs somewhere in `s`, coded
through `splitOn` (which returns more than one piece exactly when `sub`
occurs). -/
def strIncludes (s sub : String) : Bool :=
  (s.splitOn sub).length != 1

/-- The response-handling tail of `request` (part_000 lines 250-273),
parameterised by the host's JSON parser.  A non-success status builds the
enriched error from the body text: the message is `text || res.statusText`
(JavaScript `||`: the status text exactly when the body is empty), the
data is `null` for an empty body and otherwise the parsed JSON or, when
parsing throws, the raw text.  A 204 returns the empty result before any
body parsing; otherwise a JSON content type yields `res.json()` (whose
parse failure is a thrown `SyntaxError`) and anything else the raw
text. -/
def handleResponse (parse : String → Option Json) (res : HttpResponse) :
    Except RequestFailure RequestSuccess :=
  if !(resOk res) then
    let text := res.body
    let errorData : ErrorData :=
      if text = "" then ErrorData.null
      else
        match parse text with
        | some j => ErrorData.json j
        | none => ErrorData.text text
    Except.error (RequestFailure.http
      { message := if text = "" then res.statusText else text
        status := res.status
        data := errorData })
  else if res.status = 204 then
    Except.ok RequestSuccess.empty
  else
    match res.contentType with
    | some ct =>
        if strIncludes ct "application/json" then
          match parse res.body with
          | some j => Except.ok (RequestSuccess.json j)
          | none => Except.error (RequestFailure.thrown ThrownError.jsonSyntaxError)
        else Except.ok (RequestSuccess.text res.body)
    | none => Except.ok (RequestSuccess.text res.body)

/-- State of the timeout timer created by `timeoutSignal` (part_000 lines
200-204): armed from `setTimeout` until `clearTimeout`. -/
structure TimerState where
  armed : Bool

/-- `timeoutSignal` arms the timer (part_000 line 202: `setTimeout`). -/
def timeoutSignal : TimerState :=
  { armed := true }

/-- `clearTimeout(timer)` disarms it (part_000 line 280). -/
def clearTimeoutTimer (s : TimerState) : TimerState :=
  { s with armed := false }

/-- JavaScript `try/finally`: the finaliser runs on the state whether the
body completed normally or exceptionally (the body's exceptional
completion is the `Except.error` case of its result). -/
def tryFinallyRun {ε α σ : Type} (body : σ → Except ε α × σ) (fin : σ → σ)
    (s : σ) : Except ε α × σ :=
  let r := body s
  (r.1, fin r.2)

/-- How the `fetch` call itself completes: a settled response, or a
rejection (network failure, or the abort when the timeout fires). -/
inductive FetchOutcome where
  | resolved (res : HttpResponse) : FetchOutcome
  | rejected (e : ThrownError) : FetchOutcome

/-- Embedding of `request` (part_000 lines 228-282): arm the timeout
timer, run the fetch-and-handle body under `try/finally`, and clear the
timer in the `finally` block on every completion path.  The `catch` block
only logs and rethrows, so a rejected fetch surfaces unchanged. -/
def request (parse : String → Option Json) (fo : FetchOutcome) :
    Except RequestFailure RequestSuccess × TimerState :=
  tryFinallyRun
    (fun s =>
      match fo with
      | FetchOutcome.resolved res => (handleResponse parse res, s)
      | FetchOutcome.rejected e => (Except.error (RequestFailure.thrown e), s))
    clearTimeoutTimer
    timeoutSignal

/-- The error payload exactly as claim C2 words it: the JSON-parsed body
when parsing succeeds and the raw text otherwise. -/
def claimErrorData (parse : String → Option Json) (body : String) : ErrorData :=
  match parse body with
  | some j => ErrorData.json j
  | none => ErrorData.text body

/-- The host's `JSON.parse`, modelled on the concrete bodies used in the
examples: it succeeds on `\x7b"error":"not found"\x7d` with the
corresponding object and throws on everything else (in particular on the
empty string and on `oops`). -/
def parseStub : String → Option Json := fun s =>
  if s = "\x7b\"error\":\"not found\"\x7d" then
    some (Json.obj [("error", Json.str "not found")])
  else none

/-- The error body of the specification's 404 example. -/
def notFoundBody : String := "\x7b\"error\":\"not found\"\x7d"

/-- A 404 response whose body is empty. -/
def res404empty : HttpResponse :=
  { status := 404, statusText := "Not Found", contentType := none, body := "" }

/-- The specification's example: a 404 response carrying the JSON error
body. -/
def res404json : HttpResponse :=
  { status := 404, statusText := "Not Found", contentType := none,
    body := notFoundBody }

/-- A 500 response whose body is not valid JSON. -/
def res500text : HttpResponse :=
  { status := 500, statusText := "Internal Server Error", contentType := none,
    body := "oops" }

/-- A 204 response; its body is irrelevant and never parsed. -/
def res204 : HttpResponse :=
  { status := 204, statusText := "No Content", contentType := none,
    body := "ignored" }

/-- Claim C2 fails as stated: for the non-success response `404` with an
EMPTY body, the code attaches `null` as the error data (part_000 line 255:
`text ? JSON.parse(text) : null`), not the raw body text that the claim's
clause "the raw text otherwise" demands for every response on which
parsing does not succeed. -/
theorem claim_C2_counterexample :
    resOk res404empty = false ∧
    handleResponse parseStub res404empty
      = Except.error (RequestFailure.http
          { message := "Not Found", status := 404, data := ErrorData.null }) ∧
    claimErrorData parseStub res404empty.body = ErrorData.text "" ∧
    ErrorData.null ≠ ErrorData.text "" :=
  ⟨rfl, rfl, rfl, fun h => ErrorData.noConfusion h⟩

/-- Claim C2 (amended): for every response with a non-success status, the
request fails with an error whose message equals the raw body text (or the
status text when the body is empty), whose status field equals the HTTP
status code, and whose data field is the JSON-parsed body when parsing
succeeds, the raw text when the non-empty body fails to parse, and null
when the body is empty (parsing is not attempted then); in particular an
HTTP 404 with body `\x7b"error":"not found"\x7d` fails with status 404 and
the parsed payload equal to that object, and a non-empty body that is not
valid JSON is carried as raw text, never discarded. -/
theorem claim_C2_error_normalization (parse : String → Option Json)
    (res : HttpResponse) (h : resOk res = false) :
    handleResponse parse res
      = Except.error (RequestFailure.http
          { message := if res.body = "" then res.statusText else res.body
            status := res.status
            data := if res.body = "" then ErrorData.null
                    else claimErrorData parse res.body }) ∧
    handleResponse parseStub res404json
      = Except.error (RequestFailure.http
          { message := notFoundBody, status := 404,
            data := ErrorData.json (Json.obj [("error", Json.str "not found")]) }) ∧
    handleResponse parseStub res500text
      = Except.error (RequestFailure.http
          { message := "oops", status := 500, data := ErrorData.text "oops" }) := by
  refine ⟨?_, rfl, rfl⟩
  by_cases hb : res.body = ""
  · simp [handleResponse, h, hb, claimErrorData]
  · cases hp : parse res.body <;>
      simp [handleResponse, h, hb, hp, claimErrorData]

/-- Closed witness for the amended claim C2 at the specification's 404
example response. -/
theorem claim_C2_witness :
    resOk res404json = false ∧
    handleResponse parseStub res404json
      = Except.error (RequestFailure.http
          { message := if res404json.body = "" then res404json.statusText
                       else res404json.body
            status := res404json.status
            data := if res404json.body = "" then ErrorData.null
                    else claimErrorData parseStub res404json.body }) :=
  ⟨rfl, (claim_C2_error_normalization parseStub res404json rfl).1⟩

/-- Claim C7: for every successful response with HTTP status 204, `request`
resolves to the empty result; the outcome is the same for every JSON
parser and every body, so the body is neither read nor JSON-parsed. -/
theorem claim_C7_no_content (parse : String → Option Json)
    (res : HttpResponse) (h : res.status = 204) :
    handleResponse parse res = Except.ok RequestSuccess.empty ∧
    (request parse (FetchOutcome.resolved res)).1
      = Except.ok RequestSuccess.empty := by
  have hok : resOk res = true := by
    unfold resOk
    rw [h]
    rfl
  have h1 : handleResponse parse res = Except.ok RequestSuccess.empty := by
    simp [handleResponse, hok, h]
  exact ⟨h1, by simp [request, tryFinallyRun, h1]⟩

/-- Closed witness for claim C7 at the concrete 204 response `res204`. -/
theorem claim_C7_witness :
    res204.status = 204 ∧
    (handleResponse parseStub res204 = Except.ok RequestSuccess.empty ∧
      (request parseStub (FetchOutcome.resolved res204)).1
        = Except.ok RequestSuccess.empty) :=
  ⟨rfl, claim_C7_no_content parseStub res204 rfl⟩

/-- Claim C8: the timeout timer is armed when `request` starts
(`timeoutSignal`), and on every completion path — a resolved response of
any status (success or HTTP error) or a rejected fetch (network failure or
timeout abort) — the `finally` block clears it, so no timer remains armed
after the call completes. -/
theorem claim_C8_timer_cleared (parse : String → Option Json)
    (fo : FetchOutcome) :
    timeoutSignal.armed = true ∧ (request parse fo).2.armed = false :=
  ⟨rfl, rfl⟩

/-! ## Bus assembler and paginated service result
(src/infrastructure/api/assembler/bus-assembler.ts, src/unnamed/part_002) -/

/-- A bus resource as received on the wire (part_002, `BusResource`). -/
structure BusResource where
  id : Int
  busNumber : Int
  licensePlate : String
  brand : String
  characteristics : String
  isActive : Bool
  createdAt : String
deriving DecidableEq

/-- The bus domain entity (part_000, `Bus`). -/
structure Bus where
  id : Int
  busNumber : Int
  licensePlate : String
  brand : String
  characteristics : String
  isActive : Bool
  createdAt : String
deriving DecidableEq

/-- Sorting metadata of the Spring page envelope (part_002). -/
structure SortInfo where
  empty : Bool
  sorted : Bool
  unsorted : Bool
deriving DecidableEq

/-- Pageable metadata of the Spring page envelope (part_002). -/
structure Pageable where
  pageNumber : Int
  pageSize : Int
  sort : SortInfo
  offset : Int
  paged : Bool
  unpaged : Bool
deriving DecidableEq

/-- The paginated server response, a Spring `Page` envelope (part_002,
`PaginatedBusResponse`). -/
structure PaginatedBusResponse where
  content : List BusResource
  pageable : Pageable
  last : Bool
  totalElements : Int
  totalPages : Int
  size : Int
  number : Int
  sort : SortInfo
  first : Bool
  numberOfElements : Int
  empty : Bool
deriving DecidableEq

/-- The client-side paginated result (part_002, `PaginatedBusResult`). -/
structure PaginatedBusResult where
  buses : List Bus
  totalElements : Int
  totalPages : Int
  currentPage : Int
  pageSize : Int
  isFirst : Bool
  isLast : Bool
deriving DecidableEq

namespace BusAssembler

/-- `BusAssembler.toEntityFromResource` (bus-assembler.ts lines 30-40). -/
def toEntityFromResource (resource : BusResource) : Bus :=
  { id := resource.id
    busNumber := resource.busNumber
    licensePlate := resource.licensePlate
    brand := resource.brand
    isActive := resource.isActive
    characteristics := resource.characteristics
    createdAt := resource.createdAt }

/-- `BusAssembler.toEntitiesFromPaginatedResponse` (bus-assembler.ts lines
82-84). -/
def toEntitiesFromPaginatedResponse (response : PaginatedBusResponse) : List Bus :=
  response.content.map toEntityFromResource

/-- `BusAssembler.toPaginatedResult` (bus-assembler.ts lines 109-119): it
copies the metadata fields of the server envelope verbatim, with no
validation. -/
def toPaginatedResult (response : PaginatedBusResponse) : PaginatedBusResult :=
  { buses := toEntitiesFromPaginatedResponse response
    totalElements := response.totalElements
    totalPages := response.totalPages
    currentPage := response.number
    pageSize := response.size
    isFirst := response.first
    isLast := response.last }

end BusAssembler

/-- `busService.getPaginated` (part_002 lines 174-183) on a settled server
response: it passes the envelope to `BusAssembler.toPaginatedResult` and
returns the result unchanged (the catch block only rethrows). -/
def busService_getPaginated (response : PaginatedBusResponse) : PaginatedBusResult :=
  BusAssembler.toPaginatedResult response

/-- Ceiling division for the nonnegative counts involved in the page
metadata: `ceil(a / b)`. -/
def ceilDiv (a b : Int) : Int :=
  (a + b - 1) / b

/-- The page-metadata invariants of the specification, on a
`PaginatedBusResult`. -/
def pageMetadataInvariants (p : PaginatedBusResult) : Prop :=
  (0 < p.totalElements → 0 ≤ p.currentPage ∧ p.currentPage < p.totalPages) ∧
  (0 < p.pageSize → p.totalPages = ceilDiv p.totalElements p.pageSize) ∧
  (p.isFirst = true ↔ p.currentPage = 0) ∧
  (p.isLast = true ↔ p.currentPage = p.totalPages - 1)

/-- A syntactically well-formed server envelope whose metadata is
inconsistent: one element, two total pages, but page number 5 and the
first-page flag set. -/
def badEnvelope : PaginatedBusResponse :=
  { content := []
    pageable :=
      { pageNumber := 5, pageSize := 5,
        sort := { empty := true, sorted := false, unsorted := true },
        offset := 25, paged := true, unpaged := false }
    last := false
    totalElements := 1
    totalPages := 2
    size := 5
    number := 5
    sort := { empty := true, sorted := false, unsorted := true }
    first := true
    numberOfElements := 0
    empty := true }

/-- A well-formed server envelope: 23 elements, page size 5, page 1 of 5. -/
def goodEnvelope : PaginatedBusResponse :=
  { content := []
    pageable :=
      { pageNumber := 1, pageSize := 5,
        sort := { empty := true, sorted := false, unsorted := true },
        offset := 5, paged := true, unpaged := false }
    last := false
    totalElements := 23
    totalPages := 5
    size := 5
    number := 1
    sort := { empty := true, sorted := false, unsorted := true }
    first := false
    numberOfElements := 0
    empty := true }

/-- Claim C9 fails as stated: the client pipeline performs no validation,
so a server envelope carrying inconsistent metadata (here page number 5
with only 2 total pages and 1 element) is copied verbatim into a
`PaginatedBusResult` that violates the invariants. -/
theorem claim_C9_counterexample :
    0 < (busService_getPaginated badEnvelope).totalElements ∧
    ¬ pageMetadataInvariants (busService_getPaginated badEnvelope) := by
  refine ⟨by decide, ?_⟩
  intro h
  have h1 := h.1 (by decide)
  have : (busService_getPaginated badEnvelope).currentPage = 5 := by decide
  have ht : (busService_getPaginated badEnvelope).totalPages = 2 := by decide
  omega

/-- Claim C9 (amended): the client pipeline
(`BusAssembler.toPaginatedResult`, surfaced via `busService.getPaginated`)
copies the page metadata verbatim from the server envelope — currentPage
from `number`, totalPages, totalElements, pageSize from `size`, isFirst
from `first`, isLast from `last` — so its result satisfies the
page-metadata invariants exactly when the server envelope's own fields
satisfy them; no validation or recomputation is performed. -/
theorem claim_C9_metadata_passthrough (response : PaginatedBusResponse)
    (h : (0 < response.totalElements →
            0 ≤ response.number ∧ response.number < response.totalPages) ∧
         (0 < response.size →
            response.totalPages = ceilDiv response.totalElements response.size) ∧
         (response.first = true ↔ response.number = 0) ∧
         (response.last = true ↔ response.number = response.totalPages - 1)) :
    pageMetadataInvariants (busService_getPaginated response) ∧
    (busService_getPaginated response).currentPage = response.number ∧
    (busService_getPaginated response).totalPages = response.totalPages ∧
    (busService_getPaginated response).totalElements = response.totalElements ∧
    (busService_getPaginated response).pageSize = response.size ∧
    (busService_getPaginated response).isFirst = response.first ∧
    (busService_getPaginated response).isLast = response.last :=
  ⟨h, rfl, rfl, rfl, rfl, rfl, rfl⟩

/-- Closed witness for the amended claim C9 at the well-formed envelope. -/
theorem claim_C9_witness :
    ((0 < goodEnvelope.totalElements →
        0 ≤ goodEnvelope.number ∧ goodEnvelope.number < goodEnvelope.totalPages) ∧
      (0 < goodEnvelope.size →
        goodEnvelope.totalPages = ceilDiv goodEnvelope.totalElements goodEnvelope.size) ∧
      (goodEnvelope.first = true ↔ goodEnvelope.number = 0) ∧
      (goodEnvelope.last = true ↔ goodEnvelope.number = goodEnvelope.totalPages - 1)) ∧
    pageMetadataInvariants (busService_getPaginated goodEnvelope) :=
  ⟨by decide, (claim_C9_metadata_passthrough goodEnvelope (by decide)).1⟩
